import Mathlib

/-
  Shallow embedding of the JobSpeak pipeline orchestration core
  (backend/api/tasks.py and the task-triggering parts of backend/api/views.py).

  Modelling conventions:
  * Django model instances (Conversation, Interview) become Lean structures;
    the in-memory object state after each save is the tracked state.
  * A CharField status becomes the Status inductive.
  * Nullable text/JSON fields become Option types; Option.none stands for
    SQL NULL or an empty/falsy Python value where the code only tests
    truthiness.
  * The stored transcription JSON string is represented by what it parses to
    (StoredTrans); json.dumps followed by json.loads is the identity on it.
  * External inference services (Deepgram, recap, summary, analysis, coaching
    adapters) are oracles: functions supplied as parameters.  A call that
    raises and a call that returns None reach the same exception handler in
    the source, so both are Option.none results of the oracle; either way the
    external call was made and is counted in Effects.calls.
  * Each `@background` task body is split into a pure core `X_run` on a
    present record plus an Option wrapper `process_X_task` handling the
    DoesNotExist branch, mirroring the initial try/except of every task.
  * Effects records the observable side effects of one run: the number of
    external inference invocations, whether the run wrote PROCESSING for its
    own stage, and which follow-up tasks it scheduled.
-/

namespace JobSpeak

/-- Stage status values of Conversation.STATUS_CHOICES / Interview.STATUS_CHOICES. -/
inductive Status
  | pending
  | processing
  | completed
  | failed
deriving DecidableEq, Repr

/-- One element of the structured transcription list: a JSON object with
optional speaker and transcript keys (Option.none = key absent). -/
structure Segment where
  speaker : Option String
  transcript : Option String
deriving DecidableEq, Repr

/-- Shape of a parsed conversation transcription JSON value: either a list of
segment objects, or some other JSON value (with its Python truthiness). -/
inductive TransPayload
  | segs (l : List Segment)
  | nonList (truthy : Bool)
deriving DecidableEq, Repr

/-- Python truthiness of a Deepgram structured result
(covers the check `if not structured_transcription_result`). -/
def truthyPayload : TransPayload → Bool
  | .segs l => !l.isEmpty
  | .nonList b => b

/-- What the stored transcription_text string parses to: a JSON payload, or a
non-JSON string (json.loads raises).  A NULL or empty stored string is
represented by Option.none at the field. -/
inductive StoredTrans
  | payload (p : TransPayload)
  | invalid
deriving DecidableEq, Repr

/-- Python truthiness of an optional string field (None and the empty string
are falsy). -/
def truthyStr : Option String → Bool
  | none => false
  | some s => s ≠ ""

/-- The summary_data dict written by process_summary_task; Option.none at the
field models the empty dict default. -/
structure SummaryData where
  detailed : Option String
  balanced : Option String
  short : Option String
deriving DecidableEq, Repr

/-- Conversation record: the fields of backend/api/models.py Conversation that
the pipeline tasks read or write. -/
structure Conv where
  audio_file : Option String
  status_transcription : Status
  status_recap : Status
  status_summary : Status
  status_analysis : Status
  status_coaching : Status
  transcription_text : Option StoredTrans
  recap_text : Option String
  summary_data : Option SummaryData
  analysis_results : Option String
  coaching_feedback : Option String
deriving DecidableEq, Repr

/-- Check `if not conversation.audio_file or not conversation.audio_file.name`
of process_transcription_task. -/
def noAudio (c : Conv) : Bool :=
  match c.audio_file with
  | none => true
  | some n => n = ""

/-- Names of the schedulable background tasks. -/
inductive TaskName
  | convTranscription
  | convRecap
  | convSummary
  | convAnalysis
  | convCoaching
  | intTranscription
  | intAnalysis
  | intCoaching
deriving DecidableEq, Repr

/-- Observable side effects of one task run. -/
structure Effects where
  calls : Nat
  enteredProcessing : Bool
  scheduled : List TaskName
deriving DecidableEq, Repr

/-- Effects of a run that did nothing externally visible. -/
def noEffects : Effects := ⟨0, false, []⟩

/-- Adapter oracle for the conversation tasks: outcome of each external call.
audio_url is conversation.audio_file.url (Option.none = the property raised);
the other entries model the service functions of backend/api/services. -/
structure ConvOracle where
  audio_url : Option String
  deepgram : String → Option TransPayload
  recap : String → Option String
  summarize : String → Nat → Option String
  analyze : String → Option String
  coach : String → Option String

/-- Python truthiness test `not s.strip()`: true when the string is empty or
consists of whitespace only (the source only ever tests strip() for
emptiness, never uses the stripped value). -/
def isBlank (s : String) : Bool := s.data.all Char.isWhitespace

/-- Line built per segment:
f-string "Speaker {seg.get('speaker', '?')}: {seg.get('transcript', '')}". -/
def formatSegment (seg : Segment) : String :=
  "Speaker " ++ seg.speaker.getD "?" ++ ": " ++ seg.transcript.getD ""

/-- Newline join of the formatted segment lines (recap and coaching tasks). -/
def formatTranscript (l : List Segment) : String :=
  String.intercalate "\n" (l.map formatSegment)

/-- Downstream reset of process_transcription_task lines 44-61: each
non-PENDING downstream stage goes back to PENDING with its result cleared. -/
def conv_rearmDownstream (c : Conv) : Conv :=
  let c1 := if c.status_recap ≠ Status.pending then
      { c with status_recap := Status.pending, recap_text := none } else c
  let c2 := if c1.status_summary ≠ Status.pending then
      { c1 with status_summary := Status.pending, summary_data := none } else c1
  let c3 := if c2.status_analysis ≠ Status.pending then
      { c2 with status_analysis := Status.pending, analysis_results := none } else c2
  if c3.status_coaching ≠ Status.pending then
    { c3 with status_coaching := Status.pending, coaching_feedback := none } else c3

/-- Failure write of process_transcription_task (and of the no-audio branch of
ConversationViewSet.perform_create): transcription and every downstream stage
FAILED. -/
def conv_failAll (c : Conv) : Conv :=
  { c with status_transcription := Status.failed, status_recap := Status.failed,
           status_summary := Status.failed, status_analysis := Status.failed,
           status_coaching := Status.failed }

/-- Core of process_transcription_task on a present conversation. -/
def transcription_run (o : ConvOracle) (c : Conv) : Conv × Effects :=
  if noAudio c then
    (conv_failAll c, noEffects)
  else
    let c1 := { conv_rearmDownstream c with status_transcription := Status.processing }
    match o.audio_url with
    | none =>
        (conv_failAll c1, { noEffects with enteredProcessing := true })
    | some url =>
        match o.deepgram url with
        | none =>
            (conv_failAll c1, { calls := 1, enteredProcessing := true, scheduled := [] })
        | some p =>
            if truthyPayload p then
              ({ c1 with transcription_text := some (StoredTrans.payload p),
                         status_transcription := Status.completed },
               { calls := 1, enteredProcessing := true, scheduled := [TaskName.convRecap] })
            else
              (conv_failAll c1, { calls := 1, enteredProcessing := true, scheduled := [] })

/-- Task wrapper: Conversation.DoesNotExist aborts silently. -/
def process_transcription_task (o : ConvOracle) : Option Conv → Option Conv × Effects
  | none => (none, noEffects)
  | some c => let r := transcription_run o c; (some r.1, r.2)

/-- Failure write of process_recap_task: recap plus summary, analysis and
coaching all FAILED (both the dependency-guard branch and the exception
handler write this same field set). -/
def conv_failFromRecap (c : Conv) : Conv :=
  { c with status_recap := Status.failed, status_summary := Status.failed,
           status_analysis := Status.failed, status_coaching := Status.failed }

/-- Core of process_recap_task on a present conversation. -/
def recap_run (o : ConvOracle) (c : Conv) : Conv × Effects :=
  if c.status_transcription ≠ Status.completed ∨ c.transcription_text = none then
    if c.status_recap = Status.pending then
      (conv_failFromRecap c, noEffects)
    else
      (c, noEffects)
  else
    let c1 := { c with status_recap := Status.processing }
    match c.transcription_text with
    | some (StoredTrans.payload (TransPayload.segs l)) =>
        if isBlank (formatTranscript l) then
          (conv_failFromRecap c1, { noEffects with enteredProcessing := true })
        else
          match o.recap (formatTranscript l) with
          | none =>
              (conv_failFromRecap c1, { calls := 1, enteredProcessing := true, scheduled := [] })
          | some r =>
              let c2 := { c1 with recap_text := some r, status_recap := Status.completed }
              let sch :=
                (if c2.status_summary = Status.pending then [TaskName.convSummary] else []) ++
                (if c2.status_analysis = Status.pending then [TaskName.convAnalysis] else []) ++
                (if c2.status_coaching = Status.pending then [TaskName.convCoaching] else [])
              (c2, { calls := 1, enteredProcessing := true, scheduled := sch })
    | _ =>
        (conv_failFromRecap c1, { noEffects with enteredProcessing := true })

/-- Task wrapper: Conversation.DoesNotExist aborts silently. -/
def process_recap_task (o : ConvOracle) : Option Conv → Option Conv × Effects
  | none => (none, noEffects)
  | some c => let r := recap_run o c; (some r.1, r.2)

/-- Core of process_summary_task on a present conversation: the
detailed → balanced → short chain of summarize_transcript calls.  A sub-result
is recorded only when Python-truthy; completion needs detailed and balanced. -/
def summary_run (o : ConvOracle) (c : Conv) : Conv × Effects :=
  if c.status_recap ≠ Status.completed ∨ ¬ truthyStr c.recap_text then
    if c.status_summary = Status.pending then
      ({ c with status_summary := Status.failed }, noEffects)
    else
      (c, noEffects)
  else
    let c1 := { c with status_summary := Status.processing, summary_data := none }
    let r := c.recap_text.getD ""
    match o.summarize r 10 with
    | none =>
        ({ c1 with summary_data := some ⟨none, none, none⟩,
                   status_summary := Status.failed },
         { calls := 1, enteredProcessing := true, scheduled := [] })
    | some dt =>
        if dt = "" then
          ({ c1 with summary_data := some ⟨none, none, none⟩,
                     status_summary := Status.failed },
           { calls := 1, enteredProcessing := true, scheduled := [] })
        else
          match o.summarize dt 5 with
          | none =>
              ({ c1 with summary_data := some ⟨some dt, none, none⟩,
                         status_summary := Status.failed },
               { calls := 2, enteredProcessing := true, scheduled := [] })
          | some bt =>
              if bt = "" then
                ({ c1 with summary_data := some ⟨some dt, none, none⟩,
                           status_summary := Status.failed },
                 { calls := 2, enteredProcessing := true, scheduled := [] })
              else
                let st := o.summarize bt 1
                let shortRes : Option String :=
                  match st with
                  | none => none
                  | some s => if s = "" then none else some s
                ({ c1 with summary_data := some ⟨some dt, some bt, shortRes⟩,
                           status_summary := Status.completed },
                 { calls := 3, enteredProcessing := true, scheduled := [] })

/-- Task wrapper: Conversation.DoesNotExist aborts silently. -/
def process_summary_task (o : ConvOracle) : Option Conv → Option Conv × Effects
  | none => (none, noEffects)
  | some c => let r := summary_run o c; (some r.1, r.2)

/-- Core of process_analysis_task on a present conversation. -/
def analysis_run (o : ConvOracle) (c : Conv) : Conv × Effects :=
  if c.status_recap ≠ Status.completed ∨ ¬ truthyStr c.recap_text then
    if c.status_analysis = Status.pending then
      ({ c with status_analysis := Status.failed }, noEffects)
    else
      (c, noEffects)
  else
    let c1 := { c with status_analysis := Status.processing, analysis_results := none }
    match o.analyze (c.recap_text.getD "") with
    | none =>
        ({ c1 with status_analysis := Status.failed },
         { calls := 1, enteredProcessing := true, scheduled := [] })
    | some a =>
        ({ c1 with analysis_results := some a, status_analysis := Status.completed },
         { calls := 1, enteredProcessing := true, scheduled := [] })

/-- Task wrapper: Conversation.DoesNotExist aborts silently. -/
def process_analysis_task (o : ConvOracle) : Option Conv → Option Conv × Effects
  | none => (none, noEffects)
  | some c => let r := analysis_run o c; (some r.1, r.2)

/-- Core of process_coaching_task on a present conversation: its dependency is
the transcription stage (not recap); it re-parses and re-formats the stored
transcription JSON exactly like the recap task does. -/
def coaching_run (o : ConvOracle) (c : Conv) : Conv × Effects :=
  if c.status_transcription ≠ Status.completed ∨ c.transcription_text = none then
    if c.status_coaching = Status.pending then
      ({ c with status_coaching := Status.failed }, noEffects)
    else
      (c, noEffects)
  else
    let c1 := { c with status_coaching := Status.processing, coaching_feedback := none }
    match c.transcription_text with
    | some (StoredTrans.payload (TransPayload.segs l)) =>
        if isBlank (formatTranscript l) then
          ({ c1 with status_coaching := Status.failed },
           { noEffects with enteredProcessing := true })
        else
          match o.coach (formatTranscript l) with
          | none =>
              ({ c1 with status_coaching := Status.failed },
               { calls := 1, enteredProcessing := true, scheduled := [] })
          | some f =>
              ({ c1 with coaching_feedback := some f, status_coaching := Status.completed },
               { calls := 1, enteredProcessing := true, scheduled := [] })
    | _ =>
        ({ c1 with status_coaching := Status.failed },
         { noEffects with enteredProcessing := true })

/-- Task wrapper: Conversation.DoesNotExist aborts silently. -/
def process_coaching_task (o : ConvOracle) : Option Conv → Option Conv × Effects
  | none => (none, noEffects)
  | some c => let r := coaching_run o c; (some r.1, r.2)

/-- Freshly created Conversation row: serializer.save() leaves every stage at
the model default PENDING with empty results and no audio file assigned yet. -/
def freshConv : Conv :=
  { audio_file := none,
    status_transcription := Status.pending, status_recap := Status.pending,
    status_summary := Status.pending, status_analysis := Status.pending,
    status_coaching := Status.pending,
    transcription_text := none, recap_text := none, summary_data := none,
    analysis_results := none, coaching_feedback := none }

/-- ConversationViewSet.perform_create after serializer.save(): hasUpload says
whether the request carried an audio file; s3SaveName is what
S3Boto3Storage.save returned (Option.none = it raised).  A missing or falsy
saved name deletes the instance and re-raises; a saved file schedules the
transcription task; no upload at all marks transcription and every downstream
stage FAILED immediately. -/
def conv_perform_create (hasUpload : Bool) (s3SaveName : Option String) :
    Option Conv × Effects :=
  if hasUpload then
    match s3SaveName with
    | some nm =>
        if nm ≠ "" then
          (some { freshConv with audio_file := some nm },
           { noEffects with scheduled := [TaskName.convTranscription] })
        else
          (none, noEffects)
    | none => (none, noEffects)
  else
    (some (conv_failAll freshConv), noEffects)

/-- Parsed JSON value stored in an Interview's analysis_results string, kept
just fine-grained enough for the checks the coaching task performs on it:
a dict (does it contain the key "error"?), a list (per element: does it
contain "error"?), or any other JSON value (with its Python truthiness). -/
inductive ParsedJson
  | jdict (hasError : Bool)
  | jlistE (entriesHaveError : List Bool)
  | jother (truthy : Bool)
deriving DecidableEq, Repr

/-- What the stored analysis_results string parses to; json.loads raising is
the invalid case.  A NULL stored value is Option.none at the field. -/
inductive AnalysisStored
  | parsed (j : ParsedJson)
  | invalid
deriving DecidableEq, Repr

/-- One element of the answer_transcripts_json list: either the error object
written when presigned-URL generation fails, or a full structured Deepgram
result dict (extract = its results.channels[0].alternatives[0].transcript
field when that path exists).  A null element (Option.none in the list) is
written when the transcription call itself fails. -/
inductive AnswerEntry
  | errorEntry (msg : String)
  | dgResult (extract : Option String)
deriving DecidableEq, Repr

/-- Payload stored in coaching_feedback by process_interview_coaching_task:
json.dumps of coaching tips, of the analysis-error gate object, or of the
exception-handler error object. -/
inductive CoachVal
  | tips (s : String)
  | errorAnalysis (details : ParsedJson)
  | errorProcess (msg : String)
deriving DecidableEq, Repr

/-- Interview record: the fields of backend/api/models.py Interview that the
pipeline tasks read or write.  questions_used holds the parsed question list:
the parsing ladder of process_interview_transcription_task lines 458-475 maps
every raw stored value (list, JSON-encoded string, anything else) to exactly
such a list and nothing downstream observes the raw form. -/
structure Interview where
  answer_audio_s3_keys : List String
  questions_used : List String
  status_transcription : Status
  status_analysis : Status
  status_coaching : Status
  transcription_text : Option String
  answer_transcripts_json : Option (List (Option AnswerEntry))
  analysis_results : Option AnalysisStored
  coaching_feedback : Option CoachVal
deriving DecidableEq, Repr

/-- Outcome of handling one answer audio: presigned-URL generation raised,
the Deepgram call raised or returned a falsy/non-dict value, or it returned a
truthy dict (with the extractable transcript text, if any). -/
inductive AnswerOutcome
  | presignFail (msg : String)
  | dgFail
  | dgOk (extract : Option String)
deriving DecidableEq, Repr

/-- Adapter oracle for the interview tasks. -/
structure IntOracle where
  s3ClientOk : Bool
  answer : Nat → String → AnswerOutcome
  analyze : String → Option ParsedJson
  coach : String → Option String

/-- Question text used for answer index i:
parsed_questions[index] if index < len(parsed_questions) else the placeholder. -/
def questionAt (qs : List String) (i : Nat) : String :=
  (qs.get? i).getD "[Question text not available]"

/-- Interleaved answer text for a successfully returned Deepgram dict. -/
def extractText : Option String → String
  | none => "[Could not extract transcript text from result structure]"
  | some t => if isBlank t then "[Transcribed text was empty]" else t

/-- Handling of one S3 key inside the loop of
process_interview_transcription_task: result list entry, interleaved answer
text, and number of Deepgram calls made (0 or 1).  A blank key raises before
the presign attempt and the per-answer handler records a null entry. -/
def answerStep (o : IntOracle) (idx : Nat) (key : String) :
    Option AnswerEntry × String × Nat :=
  if isBlank key then
    (none, "[Transcription for this answer failed or was empty]", 0)
  else
    match o.answer idx key with
    | AnswerOutcome.presignFail msg =>
        (some (AnswerEntry.errorEntry ("Failed to generate presigned URL: " ++ msg)),
         "[Failed to get audio URL]", 0)
    | AnswerOutcome.dgFail =>
        (none, "[Transcription for this answer failed or was empty]", 1)
    | AnswerOutcome.dgOk e =>
        (some (AnswerEntry.dgResult e), extractText e, 1)

/-- The per-answer loop: builds the entry list, the interleaved
Question/Answer parts, and the total number of Deepgram calls. -/
def answersLoop (o : IntOracle) (qs : List String) :
    Nat → List String → List (Option AnswerEntry) × List String × Nat
  | _, [] => ([], [], 0)
  | idx, key :: rest =>
      let s := answerStep o idx key
      let r := answersLoop o qs (idx + 1) rest
      (s.1 :: r.1,
       ("Question " ++ toString (idx + 1) ++ ": " ++ questionAt qs idx) ::
         ("Answer " ++ toString (idx + 1) ++ ": " ++ s.2.1) :: r.2.1,
       s.2.2 + r.2.2)

/-- Start-of-run reset of process_interview_transcription_task lines 477-492:
clear the transcription outputs and re-arm non-PENDING downstream stages. -/
def int_rearm (i : Interview) : Interview :=
  let i1 := { i with transcription_text := none,
                     answer_transcripts_json := some [] }
  let i2 := if i1.status_analysis ≠ Status.pending then
      { i1 with status_analysis := Status.pending, analysis_results := none } else i1
  if i2.status_coaching ≠ Status.pending then
    { i2 with status_coaching := Status.pending, coaching_feedback := none } else i2

/-- Message of the ValueError raised when every per-answer attempt produced a
null entry. -/
def allFailedMsg : String :=
  "All answer transcriptions failed. No valid transcript data obtained."

/-- Core of process_interview_transcription_task on a present interview. -/
def intTranscription_run (o : IntOracle) (i : Interview) : Interview × Effects :=
  if i.answer_audio_s3_keys = [] then
    ({ i with status_transcription := Status.failed,
              status_analysis := Status.failed, status_coaching := Status.failed,
              transcription_text := some "[No audio data provided for transcription]",
              answer_transcripts_json :=
                some [some (AnswerEntry.errorEntry "No S3 keys for audio answers")] },
     noEffects)
  else
    let i1 := { int_rearm i with status_transcription := Status.processing }
    if o.s3ClientOk = false then
      ({ i1 with status_transcription := Status.failed,
                 transcription_text := some "[S3 client initialization failed]",
                 answer_transcripts_json :=
                   some [some (AnswerEntry.errorEntry "S3 client initialization failed")] },
       { noEffects with enteredProcessing := true })
    else
      let lp := answersLoop o i.questions_used 0 i.answer_audio_s3_keys
      if lp.1.any Option.isSome then
        ({ i1 with answer_transcripts_json := some lp.1,
                   transcription_text := some (String.intercalate "\n\n" lp.2.1),
                   status_transcription := Status.completed },
         { calls := lp.2.2, enteredProcessing := true, scheduled := [TaskName.intAnalysis] })
      else
        ({ i1 with status_transcription := Status.failed,
                   status_analysis := Status.failed, status_coaching := Status.failed,
                   transcription_text :=
                     some ("[Transcription process failed: " ++ allFailedMsg ++ "]"),
                   answer_transcripts_json :=
                     some [some (AnswerEntry.errorEntry
                       ("Transcription process failed: " ++ allFailedMsg))] },
         { calls := lp.2.2, enteredProcessing := true, scheduled := [] })

/-- Task wrapper: Interview.DoesNotExist aborts silently. -/
def process_interview_transcription_task (o : IntOracle) :
    Option Interview → Option Interview × Effects
  | none => (none, noEffects)
  | some i => let r := intTranscription_run o i; (some r.1, r.2)

/-- Core of process_interview_analysis_task on a present interview. -/
def intAnalysis_run (o : IntOracle) (i : Interview) : Interview × Effects :=
  if i.status_transcription ≠ Status.completed ∨ ¬ truthyStr i.transcription_text then
    if i.status_analysis = Status.pending then
      ({ i with status_analysis := Status.failed, status_coaching := Status.failed },
       noEffects)
    else
      (i, noEffects)
  else
    let i1 := { i with status_analysis := Status.processing, analysis_results := none }
    let t := i.transcription_text.getD ""
    if isBlank t then
      ({ i1 with status_analysis := Status.failed, status_coaching := Status.failed,
                 analysis_results :=
                   some (AnalysisStored.parsed (ParsedJson.jlistE [true])) },
       { noEffects with enteredProcessing := true })
    else
      match o.analyze t with
      | none =>
          ({ i1 with status_analysis := Status.failed, status_coaching := Status.failed,
                     analysis_results :=
                       some (AnalysisStored.parsed (ParsedJson.jlistE [true])) },
           { calls := 1, enteredProcessing := true, scheduled := [] })
      | some j =>
          let i2 := { i1 with analysis_results := some (AnalysisStored.parsed j),
                              status_analysis := Status.completed }
          (i2,
           { calls := 1, enteredProcessing := true,
             scheduled := if i2.status_coaching = Status.pending
               then [TaskName.intCoaching] else [] })

/-- Task wrapper: Interview.DoesNotExist aborts silently. -/
def process_interview_analysis_task (o : IntOracle) :
    Option Interview → Option Interview × Effects
  | none => (none, noEffects)
  | some i => let r := intAnalysis_run o i; (some r.1, r.2)

/-- Gate of process_interview_coaching_task lines 759-764: the parsed analysis
results are a non-empty list whose first element contains "error", or a dict
containing "error". -/
def analysisHasError : ParsedJson → Bool
  | ParsedJson.jdict b => b
  | ParsedJson.jlistE l => l.headD false
  | ParsedJson.jother _ => false

/-- Core of process_interview_coaching_task on a present interview. -/
def intCoaching_run (o : IntOracle) (i : Interview) : Interview × Effects :=
  if i.status_analysis ≠ Status.completed ∨ i.analysis_results = none then
    if i.status_coaching = Status.pending then
      ({ i with status_coaching := Status.failed }, noEffects)
    else
      (i, noEffects)
  else
    let i1 := { i with status_coaching := Status.processing, coaching_feedback := none }
    match i.analysis_results with
    | some (AnalysisStored.parsed j) =>
        if analysisHasError j then
          ({ i1 with coaching_feedback := some (CoachVal.errorAnalysis j),
                     status_coaching := Status.completed },
           { noEffects with enteredProcessing := true })
        else
          match o.coach (i.transcription_text.getD "") with
          | none =>
              ({ i1 with status_coaching := Status.failed,
                         coaching_feedback :=
                           some (CoachVal.errorProcess
                             "Coaching process failed: Coaching service failed or returned None") },
               { calls := 1, enteredProcessing := true, scheduled := [] })
          | some f =>
              ({ i1 with coaching_feedback := some (CoachVal.tips f),
                         status_coaching := Status.completed },
               { calls := 1, enteredProcessing := true, scheduled := [] })
    | _ =>
        ({ i1 with status_coaching := Status.failed,
                   coaching_feedback :=
                     some (CoachVal.errorProcess
                       "Coaching process failed: Invalid JSON format for analysis_results") },
         { noEffects with enteredProcessing := true })

/-- Task wrapper: Interview.DoesNotExist aborts silently. -/
def process_interview_coaching_task (o : IntOracle) :
    Option Interview → Option Interview × Effects
  | none => (none, noEffects)
  | some i => let r := intCoaching_run o i; (some r.1, r.2)

/-- Freshly created Interview row: every stage at the model default PENDING
with empty results and no S3 keys assigned yet. -/
def freshInterview : Interview :=
  { answer_audio_s3_keys := [], questions_used := [],
    status_transcription := Status.pending, status_analysis := Status.pending,
    status_coaching := Status.pending,
    transcription_text := none, answer_transcripts_json := none,
    analysis_results := none, coaching_feedback := none }

/-- InterviewViewSet.perform_create after serializer.save(): uploads are the
answer_audio_i request files in order; s3PutOk says whether the S3 puts
succeed.  With no uploads the record is kept as created (all stages PENDING)
and no task is scheduled; with uploads and failing puts a ValidationError
propagates, leaving the record without keys and scheduling nothing; otherwise
the keys are stored and the interview transcription task is scheduled. -/
def int_perform_create (uploads : List String) (s3PutOk : Bool) :
    Option Interview × Effects :=
  if uploads = [] then
    (some freshInterview, noEffects)
  else if s3PutOk then
    (some { freshInterview with answer_audio_s3_keys := uploads },
     { noEffects with scheduled := [TaskName.intTranscription] })
  else
    (some freshInterview, noEffects)

/-- Concrete one-segment transcription used by the test fixtures. -/
def seg0 : Segment := ⟨some "0", some "hi"⟩

/-- Stored transcription holding one non-empty segment. -/
def stOk : StoredTrans := StoredTrans.payload (TransPayload.segs [seg0])

/-- Stored transcription holding an empty segment list (formats to the empty
string, so the recap input builder rejects it). -/
def stEmpty : StoredTrans := StoredTrans.payload (TransPayload.segs [])

/-- Oracle on which every adapter call succeeds. -/
def oracleA : ConvOracle :=
  { audio_url := some "u",
    deepgram := fun _ => some (TransPayload.segs [seg0]),
    recap := fun _ => some "rc",
    summarize := fun _ _ => some "sm",
    analyze := fun _ => some "an",
    coach := fun _ => some "co" }

/-- Conversation whose transcription completed with an empty segment list and
whose other stages are still PENDING. -/
def convC1 : Conv :=
  { freshConv with status_transcription := Status.completed,
                   transcription_text := some stEmpty }

/-- Conversation whose transcription and recap both already COMPLETED. -/
def convC2 : Conv :=
  { freshConv with status_transcription := Status.completed,
                   transcription_text := some stOk,
                   status_recap := Status.completed,
                   recap_text := some "old" }

/-- Conversation ready for the summary stage: recap COMPLETED with non-empty
recap text, summary still PENDING. -/
def convC4 : Conv :=
  { freshConv with status_transcription := Status.completed,
                   transcription_text := some stOk,
                   status_recap := Status.completed,
                   recap_text := some "r" }

/-- Oracle whose detailed summary succeeds and whose balanced summary fails. -/
def oracleC4 : ConvOracle :=
  { audio_url := some "u", deepgram := fun _ => none, recap := fun _ => none,
    summarize := fun _ f => if f = 10 then some "d" else none,
    analyze := fun _ => none, coach := fun _ => none }

/-- Oracle whose detailed and balanced summaries succeed and whose short
summary fails. -/
def oracleC5 : ConvOracle :=
  { audio_url := some "u", deepgram := fun _ => none, recap := fun _ => none,
    summarize := fun _ f => if f = 10 then some "d" else if f = 5 then some "b" else none,
    analyze := fun _ => none, coach := fun _ => none }

/-- Interview oracle on which presigned-URL generation fails for every
answer. -/
def oracleC6 : IntOracle :=
  { s3ClientOk := true,
    answer := fun _ _ => AnswerOutcome.presignFail "boom",
    analyze := fun _ => none,
    coach := fun _ => none }

/-- Interview with a single answer-audio S3 key and all stages PENDING. -/
def intC6 : Interview := { freshInterview with answer_audio_s3_keys := ["k0"] }

/-- C9: when the artifact no longer exists at execution time, every task run
aborts silently — the database is unchanged, no external inference call is
made, nothing enters PROCESSING, and nothing further is scheduled. -/
theorem C9_deleted_artifact_silent_abort :
    ∀ (oc : ConvOracle) (oi : IntOracle),
      process_transcription_task oc none = (none, noEffects) ∧
      process_recap_task oc none = (none, noEffects) ∧
      process_summary_task oc none = (none, noEffects) ∧
      process_analysis_task oc none = (none, noEffects) ∧
      process_coaching_task oc none = (none, noEffects) ∧
      process_interview_transcription_task oi none = (none, noEffects) ∧
      process_interview_analysis_task oi none = (none, noEffects) ∧
      process_interview_coaching_task oi none = (none, noEffects) := by
  intro oc oi
  exact ⟨rfl, rfl, rfl, rfl, rfl, rfl, rfl, rfl⟩

/-- C3 counterexample: an interview created with no answer-audio references is
NOT marked FAILED — all three of its stages stay PENDING and nothing is
scheduled, contradicting the claim that onArtifactCreated immediately fails
the root stage and its descendants for every sourceless artifact. -/
theorem C3_counterexample :
    Option.map Interview.status_transcription (int_perform_create [] true).1
        = some Status.pending ∧
    Option.map Interview.status_analysis (int_perform_create [] true).1
        = some Status.pending ∧
    Option.map Interview.status_coaching (int_perform_create [] true).1
        = some Status.pending ∧
    (int_perform_create [] true).2 = noEffects := by
  exact ⟨rfl, rfl, rfl, rfl⟩

/-- C3 amended: a conversation created with no audio upload has transcription
and every downstream stage marked FAILED immediately, with no inference call
and nothing scheduled (and a later transcription run on it still makes no
call); an interview created with no answer-audio references is left with all
stages PENDING — nothing is marked FAILED — and the transcription task is
never scheduled, so no inference call is made for it either. -/
theorem C3_amended_create_without_source :
    (∀ s3name : Option String,
        conv_perform_create false s3name = (some (conv_failAll freshConv), noEffects)) ∧
    (conv_failAll freshConv).status_transcription = Status.failed ∧
    (conv_failAll freshConv).status_recap = Status.failed ∧
    (conv_failAll freshConv).status_summary = Status.failed ∧
    (conv_failAll freshConv).status_analysis = Status.failed ∧
    (conv_failAll freshConv).status_coaching = Status.failed ∧
    (∀ o : ConvOracle,
        (process_transcription_task o (some (conv_failAll freshConv))).2.calls = 0) ∧
    (∀ b : Bool, int_perform_create [] b = (some freshInterview, noEffects)) ∧
    freshInterview.status_transcription = Status.pending ∧
    freshInterview.status_analysis = Status.pending ∧
    freshInterview.status_coaching = Status.pending := by
  exact ⟨fun _ => rfl, rfl, rfl, rfl, rfl, rfl, fun _ => rfl, fun _ => rfl, rfl, rfl, rfl⟩

/-- C1 counterexample: a conversation whose recap input builder finds an empty
transcript (transcription COMPLETED, empty segment list) has its recap run
fail — and the run marks COACHING failed as well, with no external call made,
contradicting the claim that coaching is left eligible when recap fails. -/
theorem C1_counterexample :
    (recap_run oracleA convC1).1.status_recap = Status.failed ∧
    (recap_run oracleA convC1).1.status_summary = Status.failed ∧
    (recap_run oracleA convC1).1.status_analysis = Status.failed ∧
    (recap_run oracleA convC1).1.status_coaching = Status.failed ∧
    (recap_run oracleA convC1).2.calls = 0 := by
  exact ⟨rfl, rfl, rfl, rfl, rfl⟩

/-- C2 counterexample: re-running the recap executor on a conversation whose
recap stage is already COMPLETED (so not PENDING) is NOT a no-op — the
dependency (transcription) is satisfied, so the run makes a duplicate external
recap call and rewrites the ledger entry. -/
theorem C2_counterexample :
    convC2.status_recap = Status.completed ∧
    (recap_run oracleA convC2).2.calls = 1 ∧
    (recap_run oracleA convC2).1.recap_text = some "rc" ∧
    (recap_run oracleA convC2).1 ≠ convC2 := by
  refine ⟨rfl, by decide, by decide, by decide⟩

/-- C4 counterexample: a summary run whose detailed sub-summary succeeds but
whose balanced sub-summary fails ends with status FAILED while persisting a
non-empty result payload (the detailed text is kept in summary_data),
contradicting the claim that a FAILED stage carries no result. -/
theorem C4_counterexample :
    (summary_run oracleC4 convC4).1.status_summary = Status.failed ∧
    (summary_run oracleC4 convC4).1.summary_data = some ⟨some "d", none, none⟩ := by
  exact ⟨by decide, by decide⟩

/-- C6 counterexample: an interview with one answer whose presigned-URL
generation fails records an error entry for it, makes zero transcription
calls — so zero per-answer sub-results succeed — and the aggregate
transcription stage nevertheless ends COMPLETED, contradicting the claimed
"COMPLETED iff at least one sub-result succeeded". -/
theorem C6_counterexample :
    (intTranscription_run oracleC6 intC6).1.status_transcription = Status.completed ∧
    (intTranscription_run oracleC6 intC6).1.answer_transcripts_json =
      some [some (AnswerEntry.errorEntry "Failed to generate presigned URL: boom")] ∧
    (intTranscription_run oracleC6 intC6).2.calls = 0 := by
  exact ⟨by decide, by decide, by decide⟩

/-- C1 amended: whenever a recap run transitions the recap stage to FAILED
(whether its input builder found an empty/invalid transcript or the recap
service call failed), the run cascade-fails summary, analysis AND coaching —
the code treats coaching as downstream of recap for failure propagation, even
though the coaching executor's own dependency is transcription only. -/
theorem C1_amended_recap_failure_cascades (o : ConvOracle) (c : Conv)
    (hpre : c.status_recap ≠ Status.failed)
    (hpost : (recap_run o c).1.status_recap = Status.failed) :
    (recap_run o c).1.status_summary = Status.failed ∧
    (recap_run o c).1.status_analysis = Status.failed ∧
    (recap_run o c).1.status_coaching = Status.failed := by
  by_cases hg : c.status_transcription ≠ Status.completed ∨ c.transcription_text = none
  · by_cases hp : c.status_recap = Status.pending
    · unfold recap_run
      rw [if_pos hg, if_pos hp]
      exact ⟨rfl, rfl, rfl⟩
    · unfold recap_run at hpost
      rw [if_pos hg, if_neg hp] at hpost
      exact absurd hpost hpre
  · rcases htx : c.transcription_text with _ | st
    · exact absurd (Or.inr htx) hg
    rcases st with p | _
    · rcases p with l | b
      · by_cases hb : isBlank (formatTranscript l)
        · unfold recap_run
          rw [if_neg hg]
          simp only [htx]
          rw [if_pos hb]
          exact ⟨rfl, rfl, rfl⟩
        · rcases hr : o.recap (formatTranscript l) with _ | r
          · unfold recap_run
            rw [if_neg hg]
            simp only [htx]
            rw [if_neg hb]
            simp only [hr]
            exact ⟨rfl, rfl, rfl⟩
          · unfold recap_run at hpost
            rw [if_neg hg] at hpost
            simp only [htx] at hpost
            rw [if_neg hb] at hpost
            simp only [hr] at hpost
            cases hpost
      · unfold recap_run
        rw [if_neg hg]
        simp only [htx]
        exact ⟨rfl, rfl, rfl⟩
    · unfold recap_run
      rw [if_neg hg]
      simp only [htx]
      exact ⟨rfl, rfl, rfl⟩

/-- C1 witness: the concrete empty-transcript conversation from the
counterexample instantiates the amended cascade theorem. -/
theorem C1_witness :
    (recap_run oracleA convC1).1.status_summary = Status.failed ∧
    (recap_run oracleA convC1).1.status_analysis = Status.failed ∧
    (recap_run oracleA convC1).1.status_coaching = Status.failed :=
  C1_amended_recap_failure_cascades oracleA convC1 (by decide) (by decide)

/-- C2 amended: the executors have no own-status idempotency guard.  A run on
a present artifact is a no-op (ledger unchanged, no external call, nothing
scheduled) only when its dependency precondition fails while the stage itself
is not PENDING; when the dependency precondition holds, the stage is
re-executed — re-entering PROCESSING and, for the summary chain, making at
least one duplicate external call — even if its status was already
PROCESSING, COMPLETED, or FAILED. -/
theorem C2_amended_no_idempotency_guard :
    (∀ (o : ConvOracle) (c : Conv),
        (c.status_transcription ≠ Status.completed ∨ c.transcription_text = none) →
        c.status_recap ≠ Status.pending →
        recap_run o c = (c, noEffects)) ∧
    (∀ (o : ConvOracle) (c : Conv),
        c.status_transcription = Status.completed → c.transcription_text ≠ none →
        (recap_run o c).2.enteredProcessing = true) ∧
    (∀ (o : ConvOracle) (c : Conv),
        (c.status_recap ≠ Status.completed ∨ ¬ truthyStr c.recap_text) →
        c.status_summary ≠ Status.pending →
        summary_run o c = (c, noEffects)) ∧
    (∀ (o : ConvOracle) (c : Conv),
        c.status_recap = Status.completed → truthyStr c.recap_text →
        (summary_run o c).2.enteredProcessing = true ∧
        1 ≤ (summary_run o c).2.calls) := by
  refine ⟨?_, ?_, ?_, ?_⟩
  · intro o c h1 h2
    unfold recap_run
    rw [if_pos h1, if_neg h2]
  · intro o c h1 h2
    have hg : ¬(c.status_transcription ≠ Status.completed ∨ c.transcription_text = none) :=
      fun h => h.elim (fun a => a h1) h2
    rcases htx : c.transcription_text with _ | st
    · exact absurd htx h2
    rcases st with p | _
    · rcases p with l | b
      · by_cases hb : isBlank (formatTranscript l)
        · unfold recap_run
          rw [if_neg hg]
          simp only [htx]
          rw [if_pos hb]
        · rcases hr : o.recap (formatTranscript l) with _ | r
          · unfold recap_run
            rw [if_neg hg]
            simp only [htx]
            rw [if_neg hb]
            simp only [hr]
          · unfold recap_run
            rw [if_neg hg]
            simp only [htx]
            rw [if_neg hb]
            simp only [hr]
      · unfold recap_run
        rw [if_neg hg]
        simp only [htx]
    · unfold recap_run
      rw [if_neg hg]
      simp only [htx]
  · intro o c h1 h2
    unfold summary_run
    rw [if_pos h1, if_neg h2]
  · intro o c h1 h2
    have hg : ¬(c.status_recap ≠ Status.completed ∨ ¬ truthyStr c.recap_text) :=
      fun h => h.elim (fun a => a h1) (fun b => b h2)
    unfold summary_run
    rw [if_neg hg]
    rcases hd : o.summarize (c.recap_text.getD "") 10 with _ | dt
    · simp [hd]
    · by_cases hde : dt = ""
      · simp [hd, hde]
      · rcases hb : o.summarize dt 5 with _ | bt
        · simp [hd, hde, hb]
        · by_cases hbe : bt = ""
          · simp [hd, hde, hb, hbe]
          · simp [hd, hde, hb, hbe]

/-- Conversation whose recap dependency is unsatisfied (transcription still
PENDING) while its own recap stage is already COMPLETED. -/
def convDep : Conv := { freshConv with status_recap := Status.completed }

/-- C2 witness: the no-op case and the re-execution case of the amended
idempotency statement, instantiated at concrete conversations. -/
theorem C2_witness :
    recap_run oracleA convDep = (convDep, noEffects) ∧
    (summary_run oracleA convC2).2.enteredProcessing = true :=
  ⟨C2_amended_no_idempotency_guard.1 oracleA convDep (Or.inl (by decide)) (by decide),
   (C2_amended_no_idempotency_guard.2.2.2 oracleA convC2 (by decide) (by decide)).1⟩

/-- C4 amended: the COMPLETED direction of the coupling holds — a summary run
that completes persists both the detailed and balanced sub-results, and an
interview transcription run that completes persists a non-empty aggregate
text and an answer list with at least one non-null entry — but the FAILED
direction does not: a FAILED stage may carry a non-empty payload (see the
counterexample, where the detailed text is kept on failure). -/
theorem C4_amended_result_status_coupling :
    (∀ (o : ConvOracle) (c : Conv),
        c.status_summary ≠ Status.completed →
        (summary_run o c).1.status_summary = Status.completed →
        ∃ sd : SummaryData, (summary_run o c).1.summary_data = some sd ∧
          sd.detailed ≠ none ∧ sd.balanced ≠ none) ∧
    (∀ (o : IntOracle) (i : Interview),
        (intTranscription_run o i).1.status_transcription = Status.completed →
        (intTranscription_run o i).1.transcription_text ≠ none ∧
        ∃ es : List (Option AnswerEntry),
          (intTranscription_run o i).1.answer_transcripts_json = some es ∧
          es.any Option.isSome = true) := by
  constructor
  · intro o c hpre hpost
    by_cases hg : c.status_recap ≠ Status.completed ∨ ¬ truthyStr c.recap_text
    · by_cases hp : c.status_summary = Status.pending
      · unfold summary_run at hpost
        rw [if_pos hg, if_pos hp] at hpost
        cases hpost
      · unfold summary_run at hpost
        rw [if_pos hg, if_neg hp] at hpost
        exact absurd hpost hpre
    · unfold summary_run at hpost ⊢
      rw [if_neg hg] at hpost ⊢
      rcases hd : o.summarize (c.recap_text.getD "") 10 with _ | dt
      · simp only [hd] at hpost
        cases hpost
      · simp only [hd] at hpost ⊢
        by_cases hde : dt = ""
        · rw [if_pos hde] at hpost
          cases hpost
        · rw [if_neg hde] at hpost ⊢
          rcases hb : o.summarize dt 5 with _ | bt
          · simp only [hb] at hpost
            cases hpost
          · simp only [hb] at hpost ⊢
            by_cases hbe : bt = ""
            · rw [if_pos hbe] at hpost
              cases hpost
            · rw [if_neg hbe]
              exact ⟨_, rfl, by simp, by simp⟩
  · intro o i hpost
    by_cases hk : i.answer_audio_s3_keys = []
    · unfold intTranscription_run at hpost
      rw [if_pos hk] at hpost
      cases hpost
    · by_cases hs3 : o.s3ClientOk = false
      · unfold intTranscription_run at hpost
        rw [if_neg hk, if_pos hs3] at hpost
        cases hpost
      · by_cases hany :
          (answersLoop o i.questions_used 0 i.answer_audio_s3_keys).1.any Option.isSome = true
        · unfold intTranscription_run
          rw [if_neg hk, if_neg hs3, if_pos hany]
          exact ⟨by simp, ⟨_, rfl, hany⟩⟩
        · unfold intTranscription_run at hpost
          rw [if_neg hk, if_neg hs3, if_neg hany] at hpost
          cases hpost

/-- C4 witness: a successful detailed/balanced chain instantiates the
COMPLETED direction of the amended coupling theorem. -/
theorem C4_witness :
    ∃ sd : SummaryData, (summary_run oracleC5 convC4).1.summary_data = some sd ∧
      sd.detailed ≠ none ∧ sd.balanced ≠ none :=
  C4_amended_result_status_coupling.1 oracleC5 convC4 (by decide) (by decide)

/-- C5: for a summary run whose recap dependency is COMPLETED with non-empty
recap text, the stage ends COMPLETED exactly when the detailed and balanced
sub-summaries both succeed (a failing short sub-summary does not prevent
completion), and ends FAILED when either the detailed or the balanced
sub-summary fails. -/
theorem C5_summary_completion_policy (o : ConvOracle) (c : Conv) (r : String)
    (hrs : c.status_recap = Status.completed) (hrt : c.recap_text = some r)
    (hr : r ≠ "") :
    (∀ dt, o.summarize r 10 = some dt → dt ≠ "" →
      ∀ bt, o.summarize dt 5 = some bt → bt ≠ "" →
        (summary_run o c).1.status_summary = Status.completed) ∧
    ((o.summarize r 10 = none ∨ o.summarize r 10 = some "") →
        (summary_run o c).1.status_summary = Status.failed) ∧
    (∀ dt, o.summarize r 10 = some dt → dt ≠ "" →
      (o.summarize dt 5 = none ∨ o.summarize dt 5 = some "") →
        (summary_run o c).1.status_summary = Status.failed) := by
  have hg : ¬(c.status_recap ≠ Status.completed ∨ ¬ truthyStr c.recap_text) := by
    rintro (h | h)
    · exact h hrs
    · apply h
      rw [hrt]
      simpa [truthyStr] using hr
  have hget : c.recap_text.getD "" = r := by rw [hrt]; rfl
  refine ⟨?_, ?_, ?_⟩
  · intro dt hdt hde bt hbt hbe
    simp only [summary_run, if_neg hg, hget, hdt, hde, if_false, hbt, hbe]
  · rintro (hd | hd)
    · simp only [summary_run, if_neg hg, hget, hd]
    · simp only [summary_run, if_neg hg, hget, hd, if_true]
  · rintro dt hdt hde (hb | hb)
    · simp only [summary_run, if_neg hg, hget, hdt, hde, if_false, hb]
    · simp only [summary_run, if_neg hg, hget, hdt, hde, if_false, hb, if_true]

/-- C5 witness: detailed and balanced succeed, short fails, and the stage
completes, per the policy theorem at a concrete conversation. -/
theorem C5_witness :
    (summary_run oracleC5 convC4).1.status_summary = Status.completed :=
  (C5_summary_completion_policy oracleC5 convC4 "r" rfl rfl (by decide)).1
    "d" rfl (by decide) "b" rfl (by decide)

/-- C6 amended: for an interview with a non-empty key list (and a working S3
client), the aggregate transcription stage ends COMPLETED iff at least one
per-answer entry is non-null; on completion the entry list and a non-empty
aggregate text are persisted and the analysis task is scheduled.  An answer
failing at presigned-URL generation records an error entry — which counts as
non-null, so the stage can complete with zero successful transcripts — while
an answer whose transcription call fails records a null entry, not an error
entry. -/
theorem C6_amended_aggregate_completion (o : IntOracle) (i : Interview)
    (hk : i.answer_audio_s3_keys ≠ []) (hs3 : ¬ o.s3ClientOk = false) :
    ((intTranscription_run o i).1.status_transcription = Status.completed ↔
      (answersLoop o i.questions_used 0 i.answer_audio_s3_keys).1.any Option.isSome = true) ∧
    ((answersLoop o i.questions_used 0 i.answer_audio_s3_keys).1.any Option.isSome = true →
      (intTranscription_run o i).1.answer_transcripts_json =
        some (answersLoop o i.questions_used 0 i.answer_audio_s3_keys).1 ∧
      (intTranscription_run o i).1.transcription_text ≠ none ∧
      (intTranscription_run o i).2.scheduled = [TaskName.intAnalysis]) ∧
    (∀ (idx : Nat) (key msg : String), ¬ isBlank key = true →
        o.answer idx key = AnswerOutcome.presignFail msg →
        (answerStep o idx key).1 =
          some (AnswerEntry.errorEntry ("Failed to generate presigned URL: " ++ msg))) ∧
    (∀ (idx : Nat) (key : String),
        o.answer idx key = AnswerOutcome.dgFail →
        (answerStep o idx key).1 = none) := by
  refine ⟨?_, ?_, ?_, ?_⟩
  · by_cases hany :
      (answersLoop o i.questions_used 0 i.answer_audio_s3_keys).1.any Option.isSome = true
    · unfold intTranscription_run
      rw [if_neg hk, if_neg hs3, if_pos hany]
      simp [hany]
    · unfold intTranscription_run
      rw [if_neg hk, if_neg hs3, if_neg hany]
      simp [hany]
  · intro hany
    unfold intTranscription_run
    rw [if_neg hk, if_neg hs3, if_pos hany]
    exact ⟨rfl, by simp, rfl⟩
  · intro idx key msg hkb ha
    unfold answerStep
    rw [if_neg hkb]
    simp only [ha]
  · intro idx key ha
    unfold answerStep
    by_cases hkb : isBlank key = true
    · rw [if_pos hkb]
    · rw [if_neg hkb]
      simp only [ha]

/-- Interview oracle where the second answer's transcription call fails and
every other answer succeeds. -/
def oracleC6w : IntOracle :=
  { s3ClientOk := true,
    answer := fun idx _ =>
      if idx = 1 then AnswerOutcome.dgFail else AnswerOutcome.dgOk (some "ok"),
    analyze := fun _ => none,
    coach := fun _ => none }

/-- Interview with three answer-audio references and three questions. -/
def intC6w : Interview :=
  { freshInterview with answer_audio_s3_keys := ["a", "b", "c"],
                        questions_used := ["q1", "q2", "q3"] }

/-- C6 witness: with three answers whose second transcription call fails, the
aggregate stage completes, persists the partial entry list, and schedules
analysis, per the amended policy theorem. -/
theorem C6_witness :
    (intTranscription_run oracleC6w intC6w).1.status_transcription = Status.completed ∧
    (intTranscription_run oracleC6w intC6w).2.scheduled = [TaskName.intAnalysis] ∧
    (answerStep oracleC6w 1 "b").1 = none :=
  ⟨(C6_amended_aggregate_completion oracleC6w intC6w (by decide) (by decide)).1.mpr
      (by decide),
   ((C6_amended_aggregate_completion oracleC6w intC6w (by decide) (by decide)).2.1
      (by decide)).2.2,
   (C6_amended_aggregate_completion oracleC6w intC6w (by decide) (by decide)).2.2.2
      1 "b" (by decide)⟩

/-- C7: a run writes PROCESSING for its own stage only when that stage's
dependency was COMPLETED in the pre-run state (and no run modifies its
dependency's status before that write, so the check also holds at the moment
of the write).  One conjunct per dependent stage: conversation recap, summary,
analysis and coaching, and interview analysis and coaching; the two
transcription stages have no dependencies. -/
theorem C7_processing_requires_completed_deps :
    (∀ (o : ConvOracle) (c : Conv), (recap_run o c).2.enteredProcessing = true →
        c.status_transcription = Status.completed) ∧
    (∀ (o : ConvOracle) (c : Conv), (summary_run o c).2.enteredProcessing = true →
        c.status_recap = Status.completed) ∧
    (∀ (o : ConvOracle) (c : Conv), (analysis_run o c).2.enteredProcessing = true →
        c.status_recap = Status.completed) ∧
    (∀ (o : ConvOracle) (c : Conv), (coaching_run o c).2.enteredProcessing = true →
        c.status_transcription = Status.completed) ∧
    (∀ (o : IntOracle) (i : Interview),
        (intAnalysis_run o i).2.enteredProcessing = true →
        i.status_transcription = Status.completed) ∧
    (∀ (o : IntOracle) (i : Interview),
        (intCoaching_run o i).2.enteredProcessing = true →
        i.status_analysis = Status.completed) := by
  refine ⟨?_, ?_, ?_, ?_, ?_, ?_⟩
  · intro o c h
    by_contra hne
    have hz : (recap_run o c).2.enteredProcessing = false := by
      unfold recap_run
      rw [if_pos (Or.inl hne)]
      split <;> rfl
    rw [hz] at h
    cases h
  · intro o c h
    by_contra hne
    have hz : (summary_run o c).2.enteredProcessing = false := by
      unfold summary_run
      rw [if_pos (Or.inl hne)]
      split <;> rfl
    rw [hz] at h
    cases h
  · intro o c h
    by_contra hne
    have hz : (analysis_run o c).2.enteredProcessing = false := by
      unfold analysis_run
      rw [if_pos (Or.inl hne)]
      split <;> rfl
    rw [hz] at h
    cases h
  · intro o c h
    by_contra hne
    have hz : (coaching_run o c).2.enteredProcessing = false := by
      unfold coaching_run
      rw [if_pos (Or.inl hne)]
      split <;> rfl
    rw [hz] at h
    cases h
  · intro o i h
    by_contra hne
    have hz : (intAnalysis_run o i).2.enteredProcessing = false := by
      unfold intAnalysis_run
      rw [if_pos (Or.inl hne)]
      split <;> rfl
    rw [hz] at h
    cases h
  · intro o i h
    by_contra hne
    have hz : (intCoaching_run o i).2.enteredProcessing = false := by
      unfold intCoaching_run
      rw [if_pos (Or.inl hne)]
      split <;> rfl
    rw [hz] at h
    cases h

/-- C7 witness: a recap run that actually enters PROCESSING (transcription
COMPLETED with stored text) instantiates the dependency-ordering theorem. -/
theorem C7_witness : convC2.status_transcription = Status.completed :=
  C7_processing_requires_completed_deps.1 oracleA convC2 (by decide)

/-- Helper: under the reachable-state invariant that a PENDING stage holds no
result, the conversation downstream reset leaves all four downstream stages
PENDING with cleared results. -/
theorem conv_rearm_clears (c : Conv)
    (h1 : c.status_recap = Status.pending → c.recap_text = none)
    (h2 : c.status_summary = Status.pending → c.summary_data = none)
    (h3 : c.status_analysis = Status.pending → c.analysis_results = none)
    (h4 : c.status_coaching = Status.pending → c.coaching_feedback = none) :
    (conv_rearmDownstream c).status_recap = Status.pending ∧
    (conv_rearmDownstream c).recap_text = none ∧
    (conv_rearmDownstream c).status_summary = Status.pending ∧
    (conv_rearmDownstream c).summary_data = none ∧
    (conv_rearmDownstream c).status_analysis = Status.pending ∧
    (conv_rearmDownstream c).analysis_results = none ∧
    (conv_rearmDownstream c).status_coaching = Status.pending ∧
    (conv_rearmDownstream c).coaching_feedback = none := by
  by_cases g1 : c.status_recap = Status.pending <;>
    by_cases g2 : c.status_summary = Status.pending <;>
      by_cases g3 : c.status_analysis = Status.pending <;>
        by_cases g4 : c.status_coaching = Status.pending <;>
          simp_all [conv_rearmDownstream]

/-- Helper: the interview start-of-run reset leaves analysis and coaching
PENDING with cleared results and clears the transcription outputs, under the
same reachable-state invariant. -/
theorem int_rearm_clears (i : Interview)
    (h1 : i.status_analysis = Status.pending → i.analysis_results = none)
    (h2 : i.status_coaching = Status.pending → i.coaching_feedback = none) :
    (int_rearm i).status_analysis = Status.pending ∧
    (int_rearm i).analysis_results = none ∧
    (int_rearm i).status_coaching = Status.pending ∧
    (int_rearm i).coaching_feedback = none ∧
    (int_rearm i).transcription_text = none ∧
    (int_rearm i).answer_transcripts_json = some [] := by
  by_cases g1 : i.status_analysis = Status.pending <;>
    by_cases g2 : i.status_coaching = Status.pending <;>
      simp_all [int_rearm]

/-- C8: regenerating transcription re-arms everything downstream.  The
conversation reset (used by process_transcription_task when audio is present)
puts recap, summary, analysis and coaching back to PENDING with results
cleared even if they were COMPLETED or FAILED; the interview reset does the
same for analysis and coaching; and after a full conversation transcription
run with audio present every downstream result is cleared, whatever the
adapter outcome.  The invariant hypotheses only say that an already-PENDING
stage held no result, which every reachable ledger state satisfies. -/
theorem C8_regeneration_rearms_downstream :
    (∀ c : Conv,
      (c.status_recap = Status.pending → c.recap_text = none) →
      (c.status_summary = Status.pending → c.summary_data = none) →
      (c.status_analysis = Status.pending → c.analysis_results = none) →
      (c.status_coaching = Status.pending → c.coaching_feedback = none) →
      (conv_rearmDownstream c).status_recap = Status.pending ∧
      (conv_rearmDownstream c).recap_text = none ∧
      (conv_rearmDownstream c).status_summary = Status.pending ∧
      (conv_rearmDownstream c).summary_data = none ∧
      (conv_rearmDownstream c).status_analysis = Status.pending ∧
      (conv_rearmDownstream c).analysis_results = none ∧
      (conv_rearmDownstream c).status_coaching = Status.pending ∧
      (conv_rearmDownstream c).coaching_feedback = none) ∧
    (∀ i : Interview,
      (i.status_analysis = Status.pending → i.analysis_results = none) →
      (i.status_coaching = Status.pending → i.coaching_feedback = none) →
      (int_rearm i).status_analysis = Status.pending ∧
      (int_rearm i).analysis_results = none ∧
      (int_rearm i).status_coaching = Status.pending ∧
      (int_rearm i).coaching_feedback = none) ∧
    (∀ (o : ConvOracle) (c : Conv), ¬ noAudio c = true →
      (c.status_recap = Status.pending → c.recap_text = none) →
      (c.status_summary = Status.pending → c.summary_data = none) →
      (c.status_analysis = Status.pending → c.analysis_results = none) →
      (c.status_coaching = Status.pending → c.coaching_feedback = none) →
      (transcription_run o c).1.recap_text = none ∧
      (transcription_run o c).1.summary_data = none ∧
      (transcription_run o c).1.analysis_results = none ∧
      (transcription_run o c).1.coaching_feedback = none) := by
  refine ⟨?_, ?_, ?_⟩
  · intro c h1 h2 h3 h4
    exact conv_rearm_clears c h1 h2 h3 h4
  · intro i h1 h2
    have h := int_rearm_clears i h1 h2
    exact ⟨h.1, h.2.1, h.2.2.1, h.2.2.2.1⟩
  · intro o c hna h1 h2 h3 h4
    obtain ⟨-, hrt, -, hsd, -, har, -, hcf⟩ := conv_rearm_clears c h1 h2 h3 h4
    unfold transcription_run
    rw [if_neg hna]
    rcases hu : o.audio_url with _ | url
    · simp [hu, conv_failAll, hrt, hsd, har, hcf]
    · rcases hd : o.deepgram url with _ | p
      · simp [hu, hd, conv_failAll, hrt, hsd, har, hcf]
      · by_cases ht : truthyPayload p = true
        · simp [hu, hd, ht, conv_failAll, hrt, hsd, har, hcf]
        · simp [hu, hd, ht, conv_failAll, hrt, hsd, har, hcf]

/-- Conversation in which every stage previously COMPLETED with a stored
result. -/
def convDone : Conv :=
  { audio_file := some "a.mp3",
    status_transcription := Status.completed, status_recap := Status.completed,
    status_summary := Status.completed, status_analysis := Status.completed,
    status_coaching := Status.completed,
    transcription_text := some stOk, recap_text := some "rc",
    summary_data := some ⟨some "d", some "b", some "s"⟩,
    analysis_results := some "an", coaching_feedback := some "co" }

/-- C8 witness: re-arming a conversation whose downstream stages all COMPLETED
with stored results puts them back to PENDING with results cleared. -/
theorem C8_witness :
    (conv_rearmDownstream convDone).status_recap = Status.pending ∧
    (conv_rearmDownstream convDone).recap_text = none ∧
    (conv_rearmDownstream convDone).status_summary = Status.pending ∧
    (conv_rearmDownstream convDone).summary_data = none ∧
    (conv_rearmDownstream convDone).status_analysis = Status.pending ∧
    (conv_rearmDownstream convDone).analysis_results = none ∧
    (conv_rearmDownstream convDone).status_coaching = Status.pending ∧
    (conv_rearmDownstream convDone).coaching_feedback = none :=
  C8_regeneration_rearms_downstream.1 convDone (by decide) (by decide) (by decide)
    (by decide)

/-- C10: when an interview's analysis stage is COMPLETED but its stored
analysis results parse to a dict containing the key "error" (or a non-empty
list whose first element contains "error"), the coaching run makes no external
call, yet ends with the coaching stage COMPLETED and the error object
persisted as the coaching result. -/
theorem C10_coaching_completes_on_analysis_error (o : IntOracle) (i : Interview)
    (j : ParsedJson)
    (hs : i.status_analysis = Status.completed)
    (ha : i.analysis_results = some (AnalysisStored.parsed j))
    (he : analysisHasError j = true) :
    (intCoaching_run o i).2.calls = 0 ∧
    (intCoaching_run o i).1.status_coaching = Status.completed ∧
    (intCoaching_run o i).1.coaching_feedback = some (CoachVal.errorAnalysis j) := by
  have hg : ¬(i.status_analysis ≠ Status.completed ∨ i.analysis_results = none) := by
    rintro (h | h)
    · exact h hs
    · rw [ha] at h
      cases h
  unfold intCoaching_run
  rw [if_neg hg]
  simp only [ha]
  rw [if_pos he]
  exact ⟨rfl, rfl, rfl⟩

/-- Interview whose analysis completed but stored an error dict. -/
def intC10 : Interview :=
  { freshInterview with status_transcription := Status.completed,
                        transcription_text := some "t",
                        status_analysis := Status.completed,
                        analysis_results :=
                          some (AnalysisStored.parsed (ParsedJson.jdict true)) }

/-- C10 witness: the error-dict interview instantiates the gate theorem. -/
theorem C10_witness :
    (intCoaching_run oracleC6 intC10).2.calls = 0 ∧
    (intCoaching_run oracleC6 intC10).1.status_coaching = Status.completed ∧
    (intCoaching_run oracleC6 intC10).1.coaching_feedback =
      some (CoachVal.errorAnalysis (ParsedJson.jdict true)) :=
  C10_coaching_completes_on_analysis_error oracleC6 intC10 (ParsedJson.jdict true)
    rfl rfl rfl

end JobSpeak
